import Mathlib

/-!
Verification of the OMOP2OBO clinical concept annotator
(`omop2obo/clinical_concept_annotator.py`).

Shallow embedding conventions:
* pandas `DataFrame`s become Lean lists of row values; `drop_duplicates()`
  becomes `dedup`, which keeps the first occurrence of each row;
* `merge(..., how='inner', on=k)` becomes a `flatMap`/`filter` nested loop
  in left-row-major order, matching pandas row ordering;
* `merge(..., how='left', on=k)` keeps every left row, pairing it with
  `Option.none` on the right when no right row matches;
* Python `str.split(sep)` for a one-character separator becomes `pySplit`,
  `str.upper()` becomes `pyUpper` (ASCII case mapping), negative indexing
  `[-1]` becomes `List.getLastD` (a Python `split` result is never empty);
* fallible operations (constructor validation, invoking the thesaurus
  annotation without thesaurus data) return `Except`.
-/

namespace Omop2Obo

/-- Removes duplicate elements, keeping the first occurrence of each element,
mirroring pandas `DataFrame.drop_duplicates()`; `seen` accumulates the
elements already emitted. -/
def dedupAux {α : Type} [DecidableEq α] (seen : List α) : List α → List α
  | [] => []
  | x :: xs => if x ∈ seen then dedupAux seen xs else x :: dedupAux (x :: seen) xs

/-- pandas `DataFrame.drop_duplicates()`: keep the first occurrence of each row. -/
def dedup {α : Type} [DecidableEq α] (l : List α) : List α := dedupAux [] l

/-- Splits a character list at every occurrence of `c`, mirroring Python's
`str.split(sep)` for a one-character separator: the empty list splits to
`[[]]`, and separators at either end produce empty fields. -/
def splitOnChar (c : Char) : List Char → List (List Char)
  | [] => [[]]
  | a :: rest =>
    if a = c then [] :: splitOnChar c rest
    else
      match splitOnChar c rest with
      | [] => [[a]]
      | h :: t => (a :: h) :: t

/-- Python `s.split(c)` for a one-character separator `c`. -/
def pySplit (c : Char) (s : String) : List String :=
  (splitOnChar c s.data).map String.mk

/-- Python `s.upper()` restricted to the ASCII range. -/
def pyUpper (s : String) : String := String.mk (s.data.map Char.toUpper)

/-- Line 173: `x.split(':')[-1]`, the join key derived from a dbxref string. -/
def codeOfDbxref (x : String) : String := (pySplit ':' x).getLastD ""

/-- Line 177: `x.split('/')[-1].split('_')[0].upper()`, the ontology acronym
derived from an ontology URI. -/
def ontOfUri (u : String) : String :=
  pyUpper ((pySplit '_' ((pySplit '/' u).getLastD "")).headD "")

/-- Line 178: `'DbXRef_' + x.split(':')[0]`, the evidence tag derived from a
dbxref string. -/
def evidenceOfDbxref (x : String) : String :=
  "DbXRef_" ++ (pySplit ':' x).headD ""

/-- A row of the stacked long-format input to `dbxref_mapper`: the clinical
primary-key value and the `CODE` column value. -/
structure StackedRow where
  pk : String
  code : String
deriving DecidableEq

/-- A row of `combo_dict_df` (lines 172-173): the dbxref string, the ontology
URI, and the derived `CODE` join key. -/
structure ComboRow where
  dbxref : String
  ont_uri : String
  code : String
deriving DecidableEq

/-- A row of the `dbxref_mapper` output frame: the merged columns plus the
derived `ONT` and `EVIDENCE` columns. -/
structure DbxrefOut where
  pk : String
  code : String
  dbxref : String
  ont_uri : String
  ont : String
  evidence : String
deriving DecidableEq

/-- Lines 172-173: the combined dictionary items as a frame with columns
`DBXREF`, `ONT_URI` and the derived `CODE` column. -/
def comboDictDf (combined : List (String × String)) : List ComboRow :=
  combined.map fun p => ⟨p.1, p.2, codeOfDbxref p.1⟩

/-- Lines 177-178 applied to one merged row: attach `ONT` and `EVIDENCE`. -/
def mkDbxrefOut (r : StackedRow) (c : ComboRow) : DbxrefOut :=
  ⟨r.pk, r.code, c.dbxref, c.ont_uri, ontOfUri c.ont_uri, evidenceOfDbxref c.dbxref⟩

/-- Line 176: the pandas inner merge `data.merge(combo_dict_df, how='inner',
on='CODE')`, in left-row-major order. -/
def dbxrefJoin (combined : List (String × String)) (data : List StackedRow) :
    List (StackedRow × ComboRow) :=
  data.flatMap fun r =>
    ((comboDictDf combined).filter fun c => c.code == r.code).map fun c => (r, c)

/-- Lines 170-180, `ConceptAnnotator.dbxref_mapper`, taking the combined
dictionary (the `merge_dictionaries` output of line 171, which lives in
`omop2obo.utils`) as an explicit `(DBXREF, ONT_URI)` pair list: build
`combo_dict_df` with its `CODE` join key, inner-merge the stacked data on
`CODE`, drop duplicates, attach the `ONT` and `EVIDENCE` columns, and drop
duplicates again. -/
def dbxref_mapper (combined : List (String × String)) (data : List StackedRow) :
    List DbxrefOut :=
  dedup ((dedup (dbxrefJoin combined data)).map fun rc => mkDbxrefOut rc.1 rc.2)

/-- A row of the clinical DataFrame: an association list from column name to
the (stringified) cell value, since `clinical_data` is loaded with
`.astype(str)` and columns are selected by name. -/
abbrev ClinicalRow := List (String × String)

/-- Column selection on a clinical row: the value of the first entry for the
named column. -/
def colVal (r : ClinicalRow) (c : String) : String := (r.lookup c).getD ""

/-- A row of `umls_cui_data` after loading MRCONSO (columns `CUI`, `SAB`,
`CODE` from positional columns 0, 11, 13). -/
structure UMLSConceptRow where
  cui : String
  sab : String
  code : String
deriving DecidableEq

/-- A row of `umls_tui_data` after loading MRSTY (columns `CUI`, `STY` from
positional columns 0, 3). -/
structure UMLSSemRow where
  cui : String
  sty : String
deriving DecidableEq

/-- A row of the `umls_cui_annotator` output after the column rename of lines
154-155: `[primary_key, code_level, 'UMLS_CUI', 'UMLS_SAB', 'UMLS_CODE',
'UMLS_SEM_TYPE']`; the semantic type is `Option.none` when the left merge of
line 151 found no MRSTY row for the CUI (a pandas `NaN`). -/
structure UMLSAnnotRow where
  pk : String
  code : String
  umls_cui : String
  umls_sab : String
  umls_code : String
  umls_sem_type : Option String
deriving DecidableEq

/-- Lines 146-157, `ConceptAnnotator.umls_cui_annotator` on already-loaded
tables: project the clinical table to distinct (primary key, code) pairs
(line 147), inner-merge with the MRCONSO concept table on
`code_level = CODE` (line 150), left-merge with the MRSTY semantic-type table
on `CUI` and drop duplicates (line 151), then rename columns (lines 154-155). -/
def umls_cui_annotator (clinical : List ClinicalRow) (cuiData : List UMLSConceptRow)
    (tuiData : List UMLSSemRow) (primary_key code_level : String) :
    List UMLSAnnotRow :=
  let clinical_ids :=
    dedup (clinical.map fun r => (colVal r primary_key, colVal r code_level))
  let umls_cui := clinical_ids.flatMap fun p =>
    (cuiData.filter fun u => u.code == p.2).map fun u => (p, u)
  let umls_cui_semtype := umls_cui.flatMap fun pu =>
    match tuiData.filter fun s => s.cui == pu.2.cui with
    | [] => [⟨pu.1.1, pu.1.2, pu.2.cui, pu.2.sab, pu.2.code, Option.none⟩]
    | m :: ms => (m :: ms).map fun s =>
        ⟨pu.1.1, pu.1.2, pu.2.cui, pu.2.sab, pu.2.code, some s.sty⟩
  dedup umls_cui_semtype

/-- An inner annotation map of the ontology dictionary: literal string value
to ontology term URI; the same literal may occur several times (an ambiguous
cross-reference). -/
abbrev StringMap := List (String × String)

/-- One ontology's sub-dictionary: annotation type (`"label"`, `"definition"`,
`"dbxref"`, `"synonyms"`) to its annotation map. -/
abbrev OntologySub := List (String × StringMap)

/-- The nested ontology dictionary handed to the constructor: ontology
identifier (e.g. `"hp"`) to its sub-dictionary. -/
abbrev OntologyDictionary := List (String × OntologySub)

/-- Modelled from the spec: `merge_dictionaries` (imported from
`omop2obo.utils`, whose source is not part of this tree) "iterates every
configured ontology's sub-mapping for `annotation_type`, and unions all
(string → URI-set) entries into one combined mapping", retaining both URIs
when the same literal string appears under two different ontologies. This
returns the combined entry list; `flatten` below gives the resulting
string-to-URI-set mapping. -/
def flattenEntries (d : OntologyDictionary) (atype : String) : StringMap :=
  d.flatMap fun o => ((o.2.filter fun p => p.1 == atype).map Prod.snd).flatMap id

/-- Modelled from the spec: the combined mapping produced by the Dictionary
Flattener (§4.2), viewed at one literal string: the set of owning ontology
term URIs recorded for that string under `atype` across all ontologies. -/
def flatten (d : OntologyDictionary) (atype s : String) : Finset String :=
  (((flattenEntries d atype).filter fun p => p.1 == s).map Prod.snd).toFinset

/-- A Python value passed to the constructor, as far as its validation
distinguishes: `None`, a string, a list, or a (ontology) dictionary. -/
inductive PyVal where
  | pynone : PyVal
  | str : String → PyVal
  | list : List String → PyVal
  | dict : OntologyDictionary → PyVal
deriving DecidableEq

/-- Python truthiness of a constructor argument (`if not x:`). -/
def pyFalsy : PyVal → Bool
  | .pynone => true
  | .str s => s == ""
  | .list l => l.isEmpty
  | .dict d => d.isEmpty

/-- The distinct constructor failure modes of lines 55-131, one constructor
per distinct raise site/message shape: `notAString f` for
`TypeError('f must be type str.')`, `pathNotFound p` for
`OSError('The p file does not exist!')`, `emptyInput p` for
`TypeError('Input file: p is empty')`, and `typeContract f` for
`TypeError('f must be type list.'/'dict.')`. -/
inductive CtorError where
  | notAString : String → CtorError
  | pathNotFound : String → CtorError
  | emptyInput : String → CtorError
  | typeContract : String → CtorError
deriving DecidableEq

/-- A file on disk as the constructor observes it: its byte size and its
parsed contents under each of the three readers the constructor may apply. -/
structure FsFile where
  size : Nat
  clinicalRows : List ClinicalRow
  consoRows : List UMLSConceptRow
  styRows : List UMLSSemRow
deriving DecidableEq

/-- The `isinstance(str)` / `os.path.exists` / `os.stat(...).st_size == 0`
check sequence applied to each file argument (lines 56-61, 105-110, 121-126),
returning the path and the file on success. -/
def checkFileStr (fs : String → Option FsFile) (v : PyVal) (field : String) :
    Except CtorError (String × FsFile) :=
  match v with
  | .str p =>
    match fs p with
    | Option.none => .error (.pathNotFound p)
    | some f => if f.size = 0 then .error (.emptyInput p) else .ok (p, f)
  | _ => .error (.notAString field)

/-- `isinstance(x, List)` check for a required list argument (line 74). -/
def checkListField (v : PyVal) (field : String) : Except CtorError (List String) :=
  match v with
  | .list l => .ok l
  | _ => .error (.typeContract field)

/-- The optional-list pattern of lines 78-96: a falsy value is stored as
given (modelled `Option.none`), otherwise the value must be a list. -/
def checkOptListField (v : PyVal) (field : String) :
    Except CtorError (Option (List String)) :=
  if pyFalsy v then .ok Option.none
  else
    match v with
    | .list l => .ok (some l)
    | _ => .error (.typeContract field)

/-- Lines 114-116: MRCONSO loading — `.drop_duplicates()`, then drop the rows
whose `CODE` is the `'NOCODE'` sentinel, then `.drop_duplicates()` again. -/
def loadConso (raw : List UMLSConceptRow) : List UMLSConceptRow :=
  dedup ((dedup raw).filter fun r => r.code != "NOCODE")

/-- Lines 130-131: MRSTY loading — `.drop_duplicates()`. -/
def loadSty (raw : List UMLSSemRow) : List UMLSSemRow := dedup raw

/-- The attributes a successfully constructed `ConceptAnnotator` holds.
`umls_cui_data`/`umls_tui_data` are `Option.none` when the corresponding file
argument was falsy (in the source, a falsy MRCONSO argument assigns
`self.umls_data = None` at line 103 and `self.umls_cui_data` is never set). -/
structure ConceptAnnotatorState where
  clinical_data : List ClinicalRow
  primary_key : String
  concept_codes : List String
  concept_strings : Option (List String)
  ancestor_codes : Option (List String)
  ancestor_strings : Option (List String)
  ontology_dictionary : OntologyDictionary
  umls_cui_data : Option (List UMLSConceptRow)
  umls_tui_data : Option (List UMLSSemRow)
deriving DecidableEq

/-- The constructor arguments of `ConceptAnnotator.__init__`, in source
order. -/
structure CtorArgs where
  clinical_file : PyVal
  ontology_dictionary : PyVal
  primary_key : PyVal
  concept_codes : PyVal
  concept_strings : PyVal
  ancestor_codes : PyVal
  ancestor_strings : PyVal
  umls_mrconso_file : PyVal
  umls_mrsty_file : PyVal
deriving DecidableEq

/-- `isinstance(primary_key, str)` check of line 70. -/
def checkStrField (v : PyVal) (field : String) : Except CtorError String :=
  match v with
  | .str s => .ok s
  | _ => .error (.notAString field)

/-- `isinstance(ontology_dictionary, Dict)` check of line 99. -/
def checkDictField (v : PyVal) (field : String) : Except CtorError OntologyDictionary :=
  match v with
  | .dict d => .ok d
  | _ => .error (.typeContract field)

/-- Lines 102-116: a falsy MRCONSO argument leaves the concept table absent,
otherwise the file is validated and loaded with `loadConso`. -/
def loadOptConso (fs : String → Option FsFile) (v : PyVal) :
    Except CtorError (Option (List UMLSConceptRow)) :=
  if pyFalsy v then .ok Option.none
  else (checkFileStr fs v "umls_mrconso_file").map fun mf => some (loadConso mf.2.consoRows)

/-- Lines 118-131: a falsy MRSTY argument leaves the semantic-type table
absent, otherwise the file is validated and loaded with `loadSty`. -/
def loadOptSty (fs : String → Option FsFile) (v : PyVal) :
    Except CtorError (Option (List UMLSSemRow)) :=
  if pyFalsy v then .ok Option.none
  else (checkFileStr fs v "umls_mrsty_file").map fun sf => some (loadSty sf.2.styRows)

/-- Lines 51-131, `ConceptAnnotator.__init__`, with the file system passed as
a map from path to file: validates and loads each argument in source order,
failing eagerly at the first offending argument. -/
def ConceptAnnotator_init (fs : String → Option FsFile) (args : CtorArgs) :
    Except CtorError ConceptAnnotatorState := do
  let cf ← checkFileStr fs args.clinical_file "clinical_file"
  let pk ← checkStrField args.primary_key "primary_key"
  let cc ← checkListField args.concept_codes "concept_codes"
  let cstr ← checkOptListField args.concept_strings "concept_strings"
  let acode ← checkOptListField args.ancestor_codes "ancestor_codes"
  let astr ← checkOptListField args.ancestor_strings "ancestor_strings"
  let od ← checkDictField args.ontology_dictionary "ontology_dictionary"
  let cui ← loadOptConso fs args.umls_mrconso_file
  let tui ← loadOptSty fs args.umls_mrsty_file
  Except.ok ⟨cf.2.clinicalRows, pk, cc, cstr, acode, astr, od, cui, tui⟩

/-- The failure mode of invoking `umls_cui_annotator` on an annotator built
without thesaurus data. -/
inductive AnnotError where
  | missingThesaurus : AnnotError
deriving DecidableEq

/-- `ConceptAnnotator.umls_cui_annotator` as a method: in the source, when no
`umls_mrconso_file` was supplied the attribute `umls_cui_data` was never set
(line 103 assigns `self.umls_data`), so the merge at line 150 fails with
`AttributeError`; when no `umls_mrsty_file` was supplied `umls_tui_data` is
`None` and the left merge at line 151 fails with `TypeError`. Both failures
are modelled as the `missingThesaurus` error result. -/
def ConceptAnnotatorState.umls_cui_annotator_m (s : ConceptAnnotatorState)
    (primary_key code_level : String) : Except AnnotError (List UMLSAnnotRow) :=
  match s.umls_cui_data with
  | Option.none => .error .missingThesaurus
  | some cui =>
    match s.umls_tui_data with
    | Option.none => .error .missingThesaurus
    | some tui => .ok (umls_cui_annotator s.clinical_data cui tui primary_key code_level)

/-- The `umls_cui_annotator` method threaded through the annotator state: the
method body (lines 146-157) assigns no attribute of `self`, so the state
after the call is the state before it. -/
def ConceptAnnotatorState.umls_cui_annotator_st (s : ConceptAnnotatorState)
    (primary_key code_level : String) :
    ConceptAnnotatorState × Except AnnotError (List UMLSAnnotRow) :=
  (s, s.umls_cui_annotator_m primary_key code_level)

/-- The `dbxref_mapper` method threaded through the annotator state: the
combined dictionary is the flattened `dbxref` section of
`self.ontology_dictionary` (line 171); the method body (lines 170-180)
assigns no attribute of `self`, so the state after the call is the state
before it. -/
def ConceptAnnotatorState.dbxref_mapper_st (s : ConceptAnnotatorState)
    (data : List StackedRow) : ConceptAnnotatorState × List DbxrefOut :=
  (s, dbxref_mapper (flattenEntries s.ontology_dictionary "dbxref") data)

theorem mem_dedupAux {α : Type} [DecidableEq α] (a : α) (l : List α) :
    ∀ seen : List α, a ∈ dedupAux seen l ↔ a ∈ l ∧ a ∉ seen := by
  induction l with
  | nil => intro seen; simp [dedupAux]
  | cons x xs ih =>
    intro seen
    by_cases hx : x ∈ seen <;> by_cases hax : a = x <;>
      simp_all [dedupAux, List.mem_cons]

theorem mem_dedup {α : Type} [DecidableEq α] {a : α} {l : List α} :
    a ∈ dedup l ↔ a ∈ l := by
  simp [dedup, mem_dedupAux]

theorem nodup_dedupAux {α : Type} [DecidableEq α] (l : List α) :
    ∀ seen : List α, (dedupAux seen l).Nodup := by
  induction l with
  | nil => intro seen; simp [dedupAux]
  | cons x xs ih =>
    intro seen
    by_cases hx : x ∈ seen
    · simpa [dedupAux, hx] using ih seen
    · simp only [dedupAux, if_neg hx, List.nodup_cons]
      refine ⟨fun hmem => ?_, ih _⟩
      rw [mem_dedupAux] at hmem
      exact hmem.2 (List.mem_cons_self x seen)

theorem nodup_dedup {α : Type} [DecidableEq α] (l : List α) : (dedup l).Nodup :=
  nodup_dedupAux l []

theorem mem_comboDictDf {combined : List (String × String)} {c : ComboRow} :
    c ∈ comboDictDf combined ↔
      ∃ e ∈ combined, (⟨e.1, e.2, codeOfDbxref e.1⟩ : ComboRow) = c := by
  simp [comboDictDf]

theorem mem_dbxrefJoin {combined : List (String × String)} {data : List StackedRow}
    {rc : StackedRow × ComboRow} :
    rc ∈ dbxrefJoin combined data ↔
      rc.1 ∈ data ∧ rc.2 ∈ comboDictDf combined ∧ rc.2.code = rc.1.code := by
  obtain ⟨r, c⟩ := rc
  simp only [dbxrefJoin, List.mem_flatMap, List.mem_map]
  constructor
  · rintro ⟨r', hr', c', hc', heq⟩
    rw [List.mem_filter] at hc'
    injection heq with h1 h2
    subst h1; subst h2
    exact ⟨hr', hc'.1, by simpa using hc'.2⟩
  · rintro ⟨hr, hc, hkey⟩
    refine ⟨r, hr, c, ?_, rfl⟩
    rw [List.mem_filter]
    exact ⟨hc, by simpa using hkey⟩

/-- Characterization of `dbxref_mapper` membership: the output rows are exactly
the derived rows of (stacked row, dictionary entry) pairs whose join keys agree. -/
theorem mem_dbxref_mapper {combined : List (String × String)} {data : List StackedRow}
    {out : DbxrefOut} :
    out ∈ dbxref_mapper combined data ↔
      ∃ r ∈ data, ∃ e ∈ combined, codeOfDbxref e.1 = r.code ∧
        out = mkDbxrefOut r ⟨e.1, e.2, codeOfDbxref e.1⟩ := by
  simp only [dbxref_mapper, mem_dedup, List.mem_map]
  constructor
  · rintro ⟨rc, hrc, rfl⟩
    rw [mem_dbxrefJoin] at hrc
    obtain ⟨hr, hc, hkey⟩ := hrc
    rw [mem_comboDictDf] at hc
    obtain ⟨e, he, hceq⟩ := hc
    refine ⟨rc.1, hr, e, he, ?_, ?_⟩
    · rw [← hceq] at hkey
      simpa using hkey
    · rw [← hceq]
  · rintro ⟨r, hr, e, he, hkey, rfl⟩
    refine ⟨(r, ⟨e.1, e.2, codeOfDbxref e.1⟩), ?_, rfl⟩
    rw [mem_dbxrefJoin]
    refine ⟨hr, ?_, hkey⟩
    rw [mem_comboDictDf]
    exact ⟨e, he, rfl⟩

theorem except_bind_ok {ε α β : Type} {x : Except ε α} {f : α → Except ε β} {b : β} :
    x >>= f = Except.ok b ↔ ∃ a, x = Except.ok a ∧ f a = Except.ok b := by
  cases x <;> simp [Bind.bind, Except.bind]

theorem except_map_ok {ε α β : Type} {x : Except ε α} {g : α → β} {b : β} :
    x.map g = Except.ok b ↔ ∃ a, x = Except.ok a ∧ g a = b := by
  cases x <;> simp [Except.map]

/-- Membership in the flattened mapping: `u` is recorded for literal `s` iff
some configured ontology's sub-map for `atype` holds the entry `(s, u)`. -/
theorem mem_flatten {d : OntologyDictionary} {atype s u : String} :
    u ∈ flatten d atype s ↔ ∃ o ∈ d, ∃ p ∈ o.2, p.1 = atype ∧ (s, u) ∈ p.2 := by
  simp only [flatten, flattenEntries, List.mem_toFinset, List.mem_map, List.mem_filter,
    List.mem_flatMap, id_eq, beq_iff_eq]
  constructor
  · rintro ⟨q, ⟨⟨o, ho, m, ⟨p, ⟨hp, hpt⟩, hpm⟩, hqm⟩, hqs⟩, hqu⟩
    subst hpm
    subst hpt
    refine ⟨o, ho, p, hp, rfl, ?_⟩
    have hq : q = (s, u) := by
      cases q
      simp_all
    rwa [hq] at hqm
  · rintro ⟨o, ho, p, hp, hpt, hsu⟩
    exact ⟨(s, u), ⟨⟨o, ho, p.2, ⟨p, ⟨hp, hpt⟩, rfl⟩, hsu⟩, rfl⟩, rfl⟩

theorem flattenEntries_append (d₁ d₂ : OntologyDictionary) (atype : String) :
    flattenEntries (d₁ ++ d₂) atype = flattenEntries d₁ atype ++ flattenEntries d₂ atype := by
  simp [flattenEntries]

theorem loadConso_no_nocode {raw : List UMLSConceptRow} {r : UMLSConceptRow}
    (hr : r ∈ loadConso raw) : r.code ≠ "NOCODE" := by
  rw [loadConso, mem_dedup, List.mem_filter] at hr
  simpa using hr.2

theorem loadConso_nodup (raw : List UMLSConceptRow) : (loadConso raw).Nodup :=
  nodup_dedup _

/-- Inversion of a successful construction at the MRCONSO component: either
the file argument was falsy and `umls_cui_data` is absent, or the file was
validated and `umls_cui_data` holds its loaded rows. -/
theorem init_ok_cui {fs : String → Option FsFile} {args : CtorArgs}
    {s : ConceptAnnotatorState} (h : ConceptAnnotator_init fs args = .ok s) :
    (pyFalsy args.umls_mrconso_file = true ∧ s.umls_cui_data = Option.none) ∨
    (pyFalsy args.umls_mrconso_file = false ∧
      ∃ mf, checkFileStr fs args.umls_mrconso_file "umls_mrconso_file" = .ok mf ∧
        s.umls_cui_data = some (loadConso mf.2.consoRows)) := by
  simp only [ConceptAnnotator_init, except_bind_ok] at h
  obtain ⟨cf, hcf, pk, hpk, cc, hcc, cstr, hcstr, acode, hacode, astr, hastr, od, hod,
    cui, hcui, tui, htui, hmk⟩ := h
  rw [Except.ok.injEq] at hmk
  by_cases hfalsy : pyFalsy args.umls_mrconso_file
  · rw [loadOptConso, if_pos hfalsy, Except.ok.injEq] at hcui
    left
    exact ⟨hfalsy, by rw [← hmk, ← hcui]⟩
  · rw [loadOptConso, if_neg hfalsy] at hcui
    rw [except_map_ok] at hcui
    obtain ⟨mf, hmf, hcui⟩ := hcui
    right
    exact ⟨by simpa using hfalsy, mf, hmf, by rw [← hmk, ← hcui]⟩

theorem except_bind_of_ok {ε α β : Type} (a : α) (f : α → Except ε β) :
    (Except.ok a >>= f) = f a := rfl

theorem except_bind_of_error {ε α β : Type} (e : ε) (f : α → Except ε β) :
    (Except.error e >>= f : Except ε β) = Except.error e := rfl

/-- C1: every stacked input row whose `CODE` matches the join key derived from
a flattened-dictionary cross-reference entry produces an output row whose
`ONT` is the matched URI's last path segment truncated at its first underscore
and upper-cased, and whose `EVIDENCE` is `"DbXRef_"` followed by the
cross-reference string's text before its first colon. -/
theorem C1_dbxref_mapper_ont_evidence (combined : List (String × String))
    (data : List StackedRow) (r : StackedRow) (e : String × String)
    (hr : r ∈ data) (he : e ∈ combined) (hcode : codeOfDbxref e.1 = r.code) :
    ∃ out ∈ dbxref_mapper combined data,
      out.pk = r.pk ∧ out.code = r.code ∧ out.dbxref = e.1 ∧ out.ont_uri = e.2 ∧
      out.ont = pyUpper ((pySplit '_' ((pySplit '/' e.2).getLastD "")).headD "") ∧
      out.evidence = "DbXRef_" ++ (pySplit ':' e.1).headD "" := by
  refine ⟨mkDbxrefOut r ⟨e.1, e.2, codeOfDbxref e.1⟩, ?_, rfl, rfl, rfl, rfl, rfl, rfl⟩
  exact mem_dbxref_mapper.mpr ⟨r, hr, e, he, hcode, rfl⟩

/-- C1 witness: clinical code `"123"` matched against dbxref `"ICD9:123"` with
URI `"http://x/HP_001"` yields `ONT = "HP"` and `EVIDENCE = "DbXRef_ICD9"`. -/
theorem C1_dbxref_mapper_ont_evidence_witness :
    ∃ out ∈ dbxref_mapper [("ICD9:123", "http://x/HP_001")] [⟨"1", "123"⟩],
      out.pk = "1" ∧ out.code = "123" ∧ out.ont = "HP" ∧ out.evidence = "DbXRef_ICD9" := by
  obtain ⟨out, hmem, h1, h2, _h3, _h4, h5, h6⟩ :=
    C1_dbxref_mapper_ont_evidence [("ICD9:123", "http://x/HP_001")] [⟨"1", "123"⟩]
      ⟨"1", "123"⟩ ("ICD9:123", "http://x/HP_001") (by decide) (by decide) (by decide)
  refine ⟨out, hmem, h1, h2, ?_, ?_⟩
  · rw [h5]; decide
  · rw [h6]; decide

/-- C6: a code with no entry in the flattened dictionary produces zero output
rows of `dbxref_mapper` (and no error); with clinical rows `(1, "A")` and
`(1, "B")` and a dictionary mapping only `"A"` to `URI1`, the output is
exactly the one row for code `"A"`. -/
theorem C6_dbxref_unmatched_code_dropped :
    (∀ (combined : List (String × String)) (data : List StackedRow) (r : StackedRow),
        r ∈ data → (∀ e ∈ combined, codeOfDbxref e.1 ≠ r.code) →
        ∀ out ∈ dbxref_mapper combined data, out.code ≠ r.code) ∧
    dbxref_mapper [("A", "URI1")] [⟨"1", "A"⟩, ⟨"1", "B"⟩] =
      [⟨"1", "A", "A", "URI1", "URI1", "DbXRef_A"⟩] := by
  constructor
  · intro combined data r _hr hnone out hout hcode
    obtain ⟨r', _hr', e, he, hkey, hout_eq⟩ := mem_dbxref_mapper.mp hout
    apply hnone e he
    rw [hout_eq] at hcode
    simp only [mkDbxrefOut] at hcode
    exact hkey.trans hcode
  · decide

/-- C6 witness: the single output row of the `{A, B}` scenario is not a row
for the unmatched code `"B"`. -/
theorem C6_dbxref_unmatched_code_dropped_witness :
    (⟨"1", "A", "A", "URI1", "URI1", "DbXRef_A"⟩ : DbxrefOut).code ≠ "B" :=
  C6_dbxref_unmatched_code_dropped.1 [("A", "URI1")] [⟨"1", "A"⟩, ⟨"1", "B"⟩]
    ⟨"1", "B"⟩ (by decide) (by decide)
    ⟨"1", "A", "A", "URI1", "URI1", "DbXRef_A"⟩ (by decide)

/-- C10: the join key of `dbxref_mapper` is the substring after the LAST colon
of the dictionary cross-reference string, while the evidence prefix is taken
before the FIRST colon: for the dbxref `"ICD9:123:4"`, an output row exists
iff some clinical code equals `"4"`, every output row carries
`EVIDENCE = "DbXRef_ICD9"`, and a clinical code equal to the full prefixed
string `"ICD9:123"` never matches. -/
theorem C10_dbxref_join_key_last_colon (u : String) (data : List StackedRow) :
    ((∃ out, out ∈ dbxref_mapper [("ICD9:123:4", u)] data) ↔ ∃ r ∈ data, r.code = "4") ∧
    (∀ out ∈ dbxref_mapper [("ICD9:123:4", u)] data,
      out.code = "4" ∧ out.evidence = "DbXRef_ICD9") ∧
    (∀ out ∈ dbxref_mapper [("ICD9:123:4", u)] data, out.code ≠ "ICD9:123") := by
  have hk4 : codeOfDbxref "ICD9:123:4" = "4" := by decide
  refine ⟨⟨?_, ?_⟩, ?_, ?_⟩
  · rintro ⟨out, hout⟩
    obtain ⟨r, hr, e, he, hk, _⟩ := mem_dbxref_mapper.mp hout
    rw [List.mem_singleton] at he
    subst he
    exact ⟨r, hr, hk.symm.trans hk4⟩
  · rintro ⟨r, hr, hr4⟩
    exact ⟨mkDbxrefOut r ⟨"ICD9:123:4", u, codeOfDbxref "ICD9:123:4"⟩,
      mem_dbxref_mapper.mpr
        ⟨r, hr, ("ICD9:123:4", u), List.mem_singleton_self _, hk4.trans hr4.symm, rfl⟩⟩
  · intro out hout
    obtain ⟨r, _, e, he, hk, hout_eq⟩ := mem_dbxref_mapper.mp hout
    rw [List.mem_singleton] at he
    subst he
    rw [hout_eq]
    simp only [mkDbxrefOut]
    exact ⟨hk.symm.trans hk4, by decide⟩
  · intro out hout
    obtain ⟨r, _, e, he, hk, hout_eq⟩ := mem_dbxref_mapper.mp hout
    rw [List.mem_singleton] at he
    subst he
    rw [hout_eq]
    simp only [mkDbxrefOut]
    rw [hk.symm.trans hk4]
    decide

/-- C10 witness: with clinical code `"4"` the dbxref `"ICD9:123:4"` matches
and the output row has code `"4"` and evidence `"DbXRef_ICD9"`. -/
theorem C10_dbxref_join_key_last_colon_witness :
    (⟨"1", "4", "ICD9:123:4", "http://x/HP_001", "HP", "DbXRef_ICD9"⟩ : DbxrefOut).code = "4" ∧
    (⟨"1", "4", "ICD9:123:4", "http://x/HP_001", "HP", "DbXRef_ICD9"⟩ : DbxrefOut).evidence =
      "DbXRef_ICD9" :=
  (C10_dbxref_join_key_last_colon "http://x/HP_001" [⟨"1", "4"⟩]).2.1
    ⟨"1", "4", "ICD9:123:4", "http://x/HP_001", "HP", "DbXRef_ICD9"⟩ (by decide)

/-- C4: when the same literal cross-reference string appears under two
different ontologies of the dictionary, the flattened mapping retains both
owning URIs: neither is overwritten. -/
theorem C4_flatten_retains_both_uris (d : OntologyDictionary)
    (atype s u₁ u₂ o₁ o₂ : String) (sub₁ sub₂ : OntologySub) (m₁ m₂ : StringMap)
    (h₁ : (o₁, sub₁) ∈ d) (h₂ : (atype, m₁) ∈ sub₁) (h₃ : (s, u₁) ∈ m₁)
    (h₄ : (o₂, sub₂) ∈ d) (h₅ : (atype, m₂) ∈ sub₂) (h₆ : (s, u₂) ∈ m₂)
    (_hne : o₁ ≠ o₂) :
    u₁ ∈ flatten d atype s ∧ u₂ ∈ flatten d atype s :=
  ⟨mem_flatten.mpr ⟨(o₁, sub₁), h₁, (atype, m₁), h₂, rfl, h₃⟩,
   mem_flatten.mpr ⟨(o₂, sub₂), h₄, (atype, m₂), h₅, rfl, h₆⟩⟩

/-- C4 witness: the dbxref string `"ICD9:1"` held by both `hp` and `mondo`
keeps the URIs of both ontologies in the flattened mapping. -/
theorem C4_flatten_retains_both_uris_witness :
    "http://x/HP_1" ∈
      flatten [("hp", [("dbxref", [("ICD9:1", "http://x/HP_1")])]),
               ("mondo", [("dbxref", [("ICD9:1", "http://x/MONDO_1")])])] "dbxref" "ICD9:1" ∧
    "http://x/MONDO_1" ∈
      flatten [("hp", [("dbxref", [("ICD9:1", "http://x/HP_1")])]),
               ("mondo", [("dbxref", [("ICD9:1", "http://x/MONDO_1")])])] "dbxref" "ICD9:1" :=
  C4_flatten_retains_both_uris
    [("hp", [("dbxref", [("ICD9:1", "http://x/HP_1")])]),
     ("mondo", [("dbxref", [("ICD9:1", "http://x/MONDO_1")])])]
    "dbxref" "ICD9:1" "http://x/HP_1" "http://x/MONDO_1" "hp" "mondo"
    [("dbxref", [("ICD9:1", "http://x/HP_1")])] [("dbxref", [("ICD9:1", "http://x/MONDO_1")])]
    [("ICD9:1", "http://x/HP_1")] [("ICD9:1", "http://x/MONDO_1")]
    (by decide) (by decide) (by decide) (by decide) (by decide) (by decide) (by decide)

/-- C8: flattening is commutative with respect to ontology insertion order,
and flattening an already-flattened input (wrapped as a single ontology whose
`atype` sub-map is the combined entry list) changes nothing. -/
theorem C8_flatten_comm_idem :
    (∀ (d₁ d₂ : OntologyDictionary) (atype s : String),
        flatten (d₁ ++ d₂) atype s = flatten (d₂ ++ d₁) atype s) ∧
    (∀ (d : OntologyDictionary) (o atype s : String),
        flatten [(o, [(atype, flattenEntries d atype)])] atype s = flatten d atype s) := by
  constructor
  · intro d₁ d₂ atype s
    simp only [flatten, flattenEntries_append, List.filter_append, List.map_append,
      List.toFinset_append]
    exact Finset.union_comm _ _
  · intro d o atype s
    simp [flatten, flattenEntries]

/-- C2: thesaurus enrichment projects the clinical table to distinct
(primary key, code) pairs, inner-joins against the concept table on code
equality, left-joins against the semantic-type table on CUI — so a concept
lacking a semantic-type row survives with an absent semantic type — and
deduplicates; the single-concept example yields exactly one enriched row
with `UMLS_CUI = CUI1`. -/
theorem C2_umls_cui_annotator_enrichment :
    (∀ (clinical : List ClinicalRow) (cuiData : List UMLSConceptRow)
        (tuiData : List UMLSSemRow) (primary_key code_level : String),
        (umls_cui_annotator clinical cuiData tuiData primary_key code_level).Nodup) ∧
    (∀ (clinical : List ClinicalRow) (cuiData : List UMLSConceptRow)
        (tuiData : List UMLSSemRow) (primary_key code_level : String)
        (r : ClinicalRow) (u : UMLSConceptRow),
        r ∈ clinical → u ∈ cuiData → u.code = colVal r code_level →
        (∀ t ∈ tuiData, t.cui ≠ u.cui) →
        (⟨colVal r primary_key, colVal r code_level, u.cui, u.sab, u.code, Option.none⟩ :
            UMLSAnnotRow) ∈
          umls_cui_annotator clinical cuiData tuiData primary_key code_level) ∧
    umls_cui_annotator [[("pk", "1"), ("code", "123")]] [⟨"CUI1", "SAB1", "123"⟩] []
      "pk" "code" = [⟨"1", "123", "CUI1", "SAB1", "123", Option.none⟩] := by
  refine ⟨?_, ?_, by decide⟩
  · intro clinical cuiData tuiData primary_key code_level
    exact nodup_dedup _
  · intro clinical cuiData tuiData primary_key code_level r u hr hu hcode hsem
    simp only [umls_cui_annotator]
    rw [mem_dedup, List.mem_flatMap]
    refine ⟨((colVal r primary_key, colVal r code_level), u), ?_, ?_⟩
    · rw [List.mem_flatMap]
      refine ⟨(colVal r primary_key, colVal r code_level), ?_, ?_⟩
      · rw [mem_dedup, List.mem_map]
        exact ⟨r, hr, rfl⟩
      · rw [List.mem_map]
        refine ⟨u, ?_, rfl⟩
        rw [List.mem_filter]
        exact ⟨hu, by simpa using hcode⟩
    · have hnil : tuiData.filter (fun t => t.cui == u.cui) = [] := by
        rw [List.filter_eq_nil_iff]
        intro t ht
        simpa using hsem t ht
      simp only [hnil]
      simp

/-- C2 witness: concept table `[(CUI1, SAB1, "123")]`, clinical row
`(pk = 1, code = "123")`, and a semantic-type table that has no row for
`CUI1` still produce the enriched row, with an absent semantic type. -/
theorem C2_umls_cui_annotator_enrichment_witness :
    (⟨"1", "123", "CUI1", "SAB1", "123", Option.none⟩ : UMLSAnnotRow) ∈
      umls_cui_annotator [[("pk", "1"), ("code", "123")]] [⟨"CUI1", "SAB1", "123"⟩]
        [⟨"CUI2", "T047"⟩] "pk" "code" :=
  C2_umls_cui_annotator_enrichment.2.1 [[("pk", "1"), ("code", "123")]]
    [⟨"CUI1", "SAB1", "123"⟩] [⟨"CUI2", "T047"⟩] "pk" "code"
    [("pk", "1"), ("code", "123")] ⟨"CUI1", "SAB1", "123"⟩
    (by decide) (by decide) (by decide) (by decide)

/-- C3: an annotator constructed without thesaurus reference data (falsy
MRCONSO argument, hence no `umls_cui_data`) fails with the
missing-configuration error on every invocation of `umls_cui_annotator`,
for every `primary_key` and `code_level` argument. -/
theorem C3_umls_requires_thesaurus (fs : String → Option FsFile) (args : CtorArgs)
    (s : ConceptAnnotatorState) (primary_key code_level : String)
    (hinit : ConceptAnnotator_init fs args = .ok s)
    (hno : pyFalsy args.umls_mrconso_file = true) :
    s.umls_cui_annotator_m primary_key code_level = .error .missingThesaurus := by
  rcases init_ok_cui hinit with ⟨_, hcui⟩ | ⟨hfl, _⟩
  · simp [ConceptAnnotatorState.umls_cui_annotator_m, hcui]
  · simp [hno] at hfl

/-- C3 witness: a concrete annotator built with no MRCONSO/MRSTY files errors
on invocation. -/
theorem C3_umls_requires_thesaurus_witness :
    ConceptAnnotatorState.umls_cui_annotator_m
      ⟨[], "pk", [], Option.none, Option.none, Option.none, [], Option.none, Option.none⟩
      "CONCEPT_ID" "CONCEPT_SOURCE_CODE" = .error .missingThesaurus :=
  C3_umls_requires_thesaurus (fun _ => some ⟨1, [], [], []⟩)
    ⟨.str "a", .dict [], .str "pk", .list [], .pynone, .pynone, .pynone, .pynone, .pynone⟩
    ⟨[], "pk", [], Option.none, Option.none, Option.none, [], Option.none, Option.none⟩
    "CONCEPT_ID" "CONCEPT_SOURCE_CODE" rfl rfl

/-- C5: construction fails eagerly with the distinct error taxonomy: a 0-byte
clinical input file gives the empty-input error, a non-existent thesaurus
(MRCONSO) path gives the path-not-found error, and a non-list
`concept_codes` gives the type-contract error. -/
theorem C5_init_error_taxonomy :
    (∀ (fs : String → Option FsFile) (args : CtorArgs) (p : String) (f : FsFile),
        args.clinical_file = PyVal.str p → fs p = some f → f.size = 0 →
        ConceptAnnotator_init fs args = .error (.emptyInput p)) ∧
    (∀ (fs : String → Option FsFile) (args : CtorArgs) (p q : String) (f : FsFile)
        (pk : String) (cc : List String) (cstr acode astr : Option (List String))
        (od : OntologyDictionary),
        args.clinical_file = PyVal.str p → fs p = some f → f.size ≠ 0 →
        args.primary_key = PyVal.str pk →
        args.concept_codes = PyVal.list cc →
        checkOptListField args.concept_strings "concept_strings" = .ok cstr →
        checkOptListField args.ancestor_codes "ancestor_codes" = .ok acode →
        checkOptListField args.ancestor_strings "ancestor_strings" = .ok astr →
        args.ontology_dictionary = PyVal.dict od →
        args.umls_mrconso_file = PyVal.str q → q ≠ "" → fs q = Option.none →
        ConceptAnnotator_init fs args = .error (.pathNotFound q)) ∧
    (∀ (fs : String → Option FsFile) (args : CtorArgs) (p : String) (f : FsFile)
        (pk : String),
        args.clinical_file = PyVal.str p → fs p = some f → f.size ≠ 0 →
        args.primary_key = PyVal.str pk →
        (∀ l, args.concept_codes ≠ PyVal.list l) →
        ConceptAnnotator_init fs args = .error (.typeContract "concept_codes")) := by
  refine ⟨?_, ?_, ?_⟩
  · intro fs args p f h1 h2 h3
    have hc : checkFileStr fs args.clinical_file "clinical_file" = .error (.emptyInput p) := by
      simp [checkFileStr, h1, h2, h3]
    simp [ConceptAnnotator_init, hc, except_bind_of_error]
  · intro fs args p q f pk cc cstr acode astr od h1 h2 h3 h4 h5 h6 h7 h8 h9 h10 hq h12
    have hc : checkFileStr fs args.clinical_file "clinical_file" = .ok (p, f) := by
      simp [checkFileStr, h1, h2, h3]
    have hpk : checkStrField args.primary_key "primary_key" = .ok pk := by
      simp [checkStrField, h4]
    have hcc : checkListField args.concept_codes "concept_codes" = .ok cc := by
      simp [checkListField, h5]
    have hod : checkDictField args.ontology_dictionary "ontology_dictionary" = .ok od := by
      simp [checkDictField, h9]
    have hfl : pyFalsy args.umls_mrconso_file = false := by
      simp [h10, pyFalsy, hq]
    have hm : loadOptConso fs args.umls_mrconso_file = .error (.pathNotFound q) := by
      rw [loadOptConso, hfl]
      simp [h10, checkFileStr, h12, Except.map]
    simp [ConceptAnnotator_init, hc, hpk, hcc, h6, h7, h8, hod, hm,
      except_bind_of_ok, except_bind_of_error]
  · intro fs args p f pk h1 h2 h3 h4 h5
    have hc : checkFileStr fs args.clinical_file "clinical_file" = .ok (p, f) := by
      simp [checkFileStr, h1, h2, h3]
    have hpk : checkStrField args.primary_key "primary_key" = .ok pk := by
      simp [checkStrField, h4]
    have hcc : checkListField args.concept_codes "concept_codes" =
        .error (.typeContract "concept_codes") := by
      cases hv : args.concept_codes with
      | list l => exact absurd hv (h5 l)
      | pynone => simp [checkListField]
      | str a => simp [checkListField]
      | dict a => simp [checkListField]
    simp [ConceptAnnotator_init, hc, hpk, hcc, except_bind_of_ok, except_bind_of_error]

/-- C5 witness: the three construction scenarios on concrete file systems and
arguments. -/
theorem C5_init_error_taxonomy_witness :
    ConceptAnnotator_init (fun _ => some ⟨0, [], [], []⟩)
      ⟨.str "a", .dict [], .str "pk", .list [], .pynone, .pynone, .pynone, .pynone, .pynone⟩ =
      .error (.emptyInput "a") ∧
    ConceptAnnotator_init (fun x => if x = "a" then some ⟨1, [], [], []⟩ else Option.none)
      ⟨.str "a", .dict [], .str "pk", .list [], .pynone, .pynone, .pynone, .str "m", .pynone⟩ =
      .error (.pathNotFound "m") ∧
    ConceptAnnotator_init (fun _ => some ⟨1, [], [], []⟩)
      ⟨.str "a", .dict [], .str "pk", .pynone, .pynone, .pynone, .pynone, .pynone, .pynone⟩ =
      .error (.typeContract "concept_codes") := by
  refine ⟨?_, ?_, ?_⟩
  · exact C5_init_error_taxonomy.1 _ _ "a" ⟨0, [], [], []⟩ rfl (by simp) rfl
  · exact C5_init_error_taxonomy.2.1 _ _ "a" "m" ⟨1, [], [], []⟩ "pk" []
      Option.none Option.none Option.none [] rfl (by simp) (by decide)
      rfl rfl rfl rfl rfl rfl rfl (by decide) (by simp)
  · exact C5_init_error_taxonomy.2.2 _ _ "a" ⟨1, [], [], []⟩ "pk" rfl (by simp) (by decide)
      rfl (fun l h => PyVal.noConfusion h)

/-- C7: after a construction that loaded a thesaurus concept file, the loaded
concept table has no row whose code is the `"NOCODE"` sentinel and no
duplicate rows. -/
theorem C7_mrconso_loaded_clean (fs : String → Option FsFile) (args : CtorArgs)
    (s : ConceptAnnotatorState) (t : List UMLSConceptRow)
    (hinit : ConceptAnnotator_init fs args = .ok s)
    (ht : s.umls_cui_data = some t) :
    (∀ r ∈ t, r.code ≠ "NOCODE") ∧ t.Nodup := by
  rcases init_ok_cui hinit with ⟨_, hcui⟩ | ⟨_, mf, _, hcui⟩
  · rw [ht] at hcui
    exact absurd hcui (by simp)
  · have h2 : some t = some (loadConso mf.2.consoRows) := ht.symm.trans hcui
    obtain rfl := Option.some.inj h2
    exact ⟨fun r hr => loadConso_no_nocode hr, loadConso_nodup _⟩

/-- C7 witness: loading a concept file containing a `"NOCODE"` row keeps only
the clean row, which is neither the sentinel nor duplicated. -/
theorem C7_mrconso_loaded_clean_witness :
    (⟨"C", "S", "1"⟩ : UMLSConceptRow).code ≠ "NOCODE" ∧
    List.Nodup [(⟨"C", "S", "1"⟩ : UMLSConceptRow)] := by
  have h := C7_mrconso_loaded_clean
    (fun _ => some ⟨1, [], [⟨"C", "S", "NOCODE"⟩, ⟨"C", "S", "1"⟩], []⟩)
    ⟨.str "a", .dict [], .str "pk", .list [], .pynone, .pynone, .pynone, .str "m", .pynone⟩
    ⟨[], "pk", [], Option.none, Option.none, Option.none, [], some [⟨"C", "S", "1"⟩],
      Option.none⟩
    [⟨"C", "S", "1"⟩] rfl rfl
  exact ⟨h.1 ⟨"C", "S", "1"⟩ (by decide), h.2⟩

/-- C9: neither method mutates the loaded reference tables: after
`umls_cui_annotator` or `dbxref_mapper` returns, `clinical_data`,
`umls_cui_data`, `umls_tui_data` and `ontology_dictionary` are unchanged
(the method bodies assign no attribute of `self`). -/
theorem C9_methods_no_mutation :
    (∀ (s : ConceptAnnotatorState) (primary_key code_level : String),
        (s.umls_cui_annotator_st primary_key code_level).1.clinical_data = s.clinical_data ∧
        (s.umls_cui_annotator_st primary_key code_level).1.umls_cui_data = s.umls_cui_data ∧
        (s.umls_cui_annotator_st primary_key code_level).1.umls_tui_data = s.umls_tui_data ∧
        (s.umls_cui_annotator_st primary_key code_level).1.ontology_dictionary =
          s.ontology_dictionary) ∧
    (∀ (s : ConceptAnnotatorState) (data : List StackedRow),
        (s.dbxref_mapper_st data).1.clinical_data = s.clinical_data ∧
        (s.dbxref_mapper_st data).1.umls_cui_data = s.umls_cui_data ∧
        (s.dbxref_mapper_st data).1.umls_tui_data = s.umls_tui_data ∧
        (s.dbxref_mapper_st data).1.ontology_dictionary = s.ontology_dictionary) :=
  ⟨fun _ _ _ => ⟨rfl, rfl, rfl, rfl⟩, fun _ _ => ⟨rfl, rfl, rfl, rfl⟩⟩

end Omop2Obo
